import Mathlib

/-!
Verification development for the batch augmentation job engine.

The definitions below are a shallow embedding of the engine's source:
* the Content Filter / Language Attribution pair
  (`removeLanguageSentences`, `detectSentenceLanguages`,
  source `src/unnamed/part_003`, lines 19–226),
* the batch orchestrator `processBatch` (same file, lines 739–1433),
* the recovery scheduler (`src/server/workers/scheduler.js`).

Modelling conventions:
* JS strings are modelled as Lean `String`/`List Char`; `.length` counts
  characters (the source counts UTF-16 units; identical on the inputs used
  here).
* JS floating-point arithmetic on the small ratios involved
  (`matchCount / words.length`, `cleanedLength / originalLength`,
  `failed_records / total_records`) is modelled exactly over `ℚ`;
  for the integer sizes reachable in this program the `Float` comparisons
  of the source and the rational comparisons agree.
* Asynchronous database and network effects are modelled as explicit state
  passing; the outcome of each external call is an input (`TickEnv`).
-/

namespace NewCrawler

/-! ## Characters, trimming, sentence splitting -/

/-- Whitespace as used by `String.prototype.trim`. -/
def isWS (c : Char) : Bool := c.isWhitespace

abbrev Chars := List Char

/-- `text.trim()`: drop whitespace from both ends. -/
def trimChars (l : Chars) : Chars :=
  ((l.dropWhile isWS).reverse.dropWhile isWS).reverse

def jsTrim (s : String) : String := ⟨trimChars s.data⟩

/-- The sentence-terminating characters of the splitter regex `[.!?]`. -/
def isSentPunct (c : Char) : Bool := c == '.' || c == '!' || c == '?'

theorem length_takeWhile_add_dropWhile {α : Type} (p : α → Bool) (l : List α) :
    (l.takeWhile p).length + (l.dropWhile p).length = l.length := by
  have h := congrArg List.length (List.takeWhile_append_dropWhile (p := p) (l := l))
  simpa only [List.length_append] using h

/-- One left-to-right scan of `text.match(/[^.!?]+[.!?]+/g)`: `body` and
`punct` hold (reversed) the current run of non-terminators and the
following run of terminators.  A sentence match is emitted when a
terminator run ends; characters that cannot start a match (punctuation
with no preceding body) are skipped, and a trailing run without
terminating punctuation yields no match. -/
def sentScan : Chars → Chars → Chars → List Chars
  | [], body, punct =>
    if body ≠ [] ∧ punct ≠ [] then [(body.reverse ++ punct.reverse)] else []
  | c :: cs, body, punct =>
    if isSentPunct c then
      if body = [] then sentScan cs [] []
      else sentScan cs body (c :: punct)
    else
      if punct = [] then sentScan cs (c :: body) []
      else (body.reverse ++ punct.reverse) :: sentScan cs [c] []

/-- `text.match(/[^.!?]+[.!?]+/g)`: the list of all matches, each a
maximal run of non-terminators followed by the maximal run of
terminators. -/
def matchedSentences (l : Chars) : List Chars := sentScan l [] []

/-! ## Language attribution (`detectSentenceLanguages`, lines 112–137) -/

/-- `toLowerCase` restricted to the character classes the tokenizer can
see: ASCII letters and the Latin-1 letters of the word-character class. -/
def jsToLower (c : Char) : Char :=
  if 'A' ≤ c ∧ c ≤ 'Z' then Char.ofNat (c.toNat + 32)
  else if 'À' ≤ c ∧ c ≤ 'Þ' ∧ c ≠ '×' then Char.ofNat (c.toNat + 32)
  else c

/-- Character class of the tokenizer regex
`/\b[\wàáâãäåæçèéêëìíîïðñòóôõöøùúûüýþÿ]+\b/g`:
ASCII alphanumerics, underscore, and the listed accented letters
(`à`..`ÿ` except `÷`). -/
def isWordChar (c : Char) : Bool :=
  c.isAlphanum || c == '_' || ('à' ≤ c && c ≤ 'ÿ' && c ≠ '÷')

/-- Maximal runs of word characters: the token list produced by the
tokenizer regex. `acc` is the current run, reversed. -/
def tokenizeAux : Chars → Chars → List Chars
  | [], acc => if acc = [] then [] else [acc.reverse]
  | c :: cs, acc =>
    if isWordChar c then tokenizeAux cs (c :: acc)
    else if acc = [] then tokenizeAux cs []
    else acc.reverse :: tokenizeAux cs []

def tokenize (l : Chars) : List Chars := tokenizeAux l []

def COMMON_WORDS_en : List String := [
  "the", "be", "to", "of", "and", "a", "in", "that", "have", "i", "it", "for", "not", "on", "with",
  "he", "as", "you", "do", "at", "this", "but", "his", "by", "from", "they", "we", "say", "her", "she",
  "or", "an", "will", "my", "one", "all", "would", "there", "their", "what", "so", "up", "out", "if",
  "about", "who", "get", "which", "go", "me", "when", "make", "can", "like", "time", "no", "just", "him",
  "know", "take", "people", "into", "year", "your", "good", "some", "could", "them", "see", "other", "than",
  "then", "now", "look", "only", "come", "its", "over", "think", "also", "back", "after", "use", "two",
  "how", "our", "work", "first", "well", "way", "even", "new", "want", "because", "any", "these", "give",
  "day", "most", "us", "is", "was", "are", "been", "has", "had", "were", "said", "did", "having", "may",
  "should", "am", "being", "can", "could", "would", "will", "shall", "might", "must", "ought",
  "very", "here", "where", "why", "how", "when", "who", "what", "which", "whose", "whom",
  "man", "woman", "child", "person", "people", "family", "friend", "group", "government", "company",
  "number", "part", "place", "case", "fact", "hand", "eye", "life", "world", "house", "point", "thing",
  "tell", "call", "try", "ask", "need", "feel", "become", "leave", "put", "mean", "keep", "let", "begin",
  "seem", "help", "show", "hear", "play", "run", "move", "live", "believe", "hold", "bring", "happen",
  "write", "sit", "stand", "lose", "pay", "meet", "include", "continue", "set", "learn", "change", "lead",
  "understand", "watch", "follow", "stop", "create", "speak", "read", "spend", "grow", "open", "walk", "win",
  "teach", "offer", "remember", "consider", "appear", "buy", "serve", "die", "send", "expect", "build",
  "stay", "fall", "cut", "reach", "kill", "raise", "pass", "sell", "decide", "return", "explain", "hope",
  "develop", "carry", "break", "receive", "agree", "support", "hit", "produce", "eat", "cover", "catch",
  "draw", "choose", "cause", "point", "identify", "turn", "listen", "buy", "pick", "wear", "introduce"]

def COMMON_WORDS_fr : List String := [
  "le", "de", "un", "être", "et", "à", "il", "avoir", "ne", "je", "son", "que", "se", "qui", "ce",
  "dans", "en", "du", "elle", "au", "pour", "pas", "que", "vous", "par", "sur", "faire", "plus", "dire",
  "me", "on", "mon", "lui", "nous", "comme", "mais", "pouvoir", "avec", "tout", "y", "aller", "voir",
  "en", "bien", "où", "sans", "tu", "ou", "leur", "homme", "si", "deux", "moi", "vouloir", "te", "là",
  "dont", "autre", "celui", "votre", "très", "ni", "jour", "même", "aussi", "savoir", "notre", "temps",
  "peu", "chose", "ses", "tant", "encore", "tous", "venir", "monde", "croire", "grand", "main", "premier",
  "car", "donc", "toujours", "dire", "avant", "quelque", "année", "France", "trop", "rendre", "tenir",
  "prendre", "sous", "vie", "puis", "mettre", "entre", "moins", "fois", "contre", "parler", "après",
  "donner", "quel", "trouver", "heure", "bon", "falloir", "demander", "sentir", "nouvelle", "pays", "moment",
  "alors", "cas", "suite", "part", "devenir", "sembler", "vers", "dès", "reste", "ainsi", "raison", "jeune",
  "femme", "cela", "enfant", "passer", "point", "soit", "chaque", "quelqu", "père", "seulement", "esprit",
  "laisser", "regard", "besoin", "présent", "comprendre", "ville", "lever", "seul", "chez", "devant", "entendre",
  "fond", "famille", "tant", "cœur", "place", "certain", "ensemble", "arriver", "depuis", "vivre", "quand",
  "lieu", "reprendre", "penser", "arrêter", "rentrer", "long", "mourir", "effet", "connaître", "nombre",
  "personne", "aujourd", "sortir", "rester", "ouvrir", "loi", "œil", "travers", "hui", "mois", "porter",
  "attendre", "suivre", "tomber", "écrire", "garder", "beau", "devoir", "forme", "cause", "merci", "ami",
  "jamais", "toute", "côté", "dernier", "fin", "face", "exemple", "voix", "appeler", "mieux", "retourner",
  "besoin", "question", "matin", "quitter", "servir", "entrer", "revenir", "soir", "vue", "répondre", "obtenir",
  "groupe", "manière", "société", "agir", "corps", "aimer", "montrer", "reconnaître", "blanc", "politique",
  "suivant", "jouer", "permettre", "assez", "mener", "fille", "début", "changer", "continuer", "produire"]

def COMMON_WORDS_de : List String := [
  "der", "die", "und", "in", "den", "von", "zu", "das", "mit", "sich", "des", "auf", "für", "ist", "im",
  "dem", "nicht", "ein", "eine", "als", "auch", "es", "an", "werden", "aus", "er", "hat", "dass", "sie",
  "nach", "wird", "bei", "einer", "um", "am", "sind", "noch", "wie", "einem", "über", "einen", "so", "zum",
  "war", "haben", "nur", "oder", "aber", "vor", "zur", "bis", "mehr", "durch", "man", "sein", "wurde", "sei",
  "in", "prozent", "hatte", "kann", "gegen", "vom", "können", "schon", "wenn", "habe", "seine", "mark",
  "ihre", "dann", "unter", "wir", "soll", "ich", "eines", "es", "jahr", "zwei", "jahren", "diese", "dieser",
  "wieder", "keine", "seinem", "ob", "dir", "allen", "großen", "bereits", "damit", "da", "seit", "können",
  "dies", "all", "doch", "worden", "dazu", "gehabt", "menschen", "zeit", "land", "ihm", "heute", "teil",
  "gut", "neue", "seite", "dabei", "gewesen", "dr", "ohne", "jedoch", "selbst", "ersten", "nun", "leben",
  "ende", "anderen", "ja", "gemacht", "während", "tag", "zwischen", "immer", "deutscher", "ganz", "deinem",
  "stelle", "neuen", "fall", "vor", "deutsche", "drei", "werk", "dort", "staat", "kein", "etwas", "deutschland",
  "welt", "sollte", "liegt", "wohl", "gleichzeitig", "weitere", "weg", "geben", "tage", "macht", "kommt",
  "frage", "haus", "erst", "hand", "gleich", "stehen", "einzelnen", "weil", "ihnen", "außerdem", "späteren",
  "mann", "frau", "stelle", "lässt", "musik", "gegeben", "seines", "meter", "allein", "gerade", "weise",
  "beiden", "ihrem", "wenig", "trotz", "gehen", "sogar", "gar", "sehen", "setzen", "kleinen", "wissen",
  "letzte", "anderen", "bald", "wegen", "bleiben", "zeigen", "lassen", "meisten", "scheint", "finden",
  "neben", "zweiten", "gebracht", "kommen", "hinter", "denen", "entwicklung", "warum", "oft", "ebenso",
  "nächsten", "gute", "statt", "kunst", "ersten", "darin", "deutlich", "zunächst", "ihres", "führen",
  "bekannt", "nie", "fest", "darauf", "gilt", "große", "vielen", "erreichen", "tun", "aller", "einmal",
  "gegenüber", "genannt", "erhalten", "wahr", "zwar", "besonders", "schließlich", "wollen", "dessen", "gab"]

def COMMON_WORDS_pt : List String := [
  "o", "a", "de", "e", "do", "da", "em", "um", "para", "é", "com", "não", "uma", "os", "no", "se", "na",
  "por", "mais", "as", "dos", "como", "mas", "foi", "ao", "ele", "das", "tem", "à", "seu", "sua", "ou",
  "ser", "quando", "muito", "há", "nos", "já", "está", "eu", "também", "só", "pelo", "pela", "até", "isso",
  "ela", "entre", "era", "depois", "sem", "mesmo", "aos", "ter", "seus", "quem", "nas", "me", "esse", "eles",
  "estão", "você", "tinha", "foram", "essa", "num", "nem", "suas", "meu", "às", "minha", "têm", "numa", "pelos",
  "elas", "havia", "seja", "qual", "será", "nós", "tenho", "lhe", "deles", "essas", "esses", "pelas", "este",
  "fosse", "dele", "tu", "te", "vocês", "vos", "lhes", "meus", "minhas", "teu", "tua", "teus", "tuas", "nosso",
  "nossa", "nossos", "nossas", "dela", "delas", "esta", "estes", "estas", "aquele", "aquela", "aqueles",
  "aquelas", "isto", "aquilo", "estou", "está", "estamos", "estão", "estive", "esteve", "estivemos", "estiveram",
  "estava", "estávamos", "estavam", "estivera", "estivéramos", "esteja", "estejamos", "estejam", "estivesse",
  "estivéssemos", "estivessem", "estiver", "estivermos", "estiverem", "hei", "há", "havemos", "hão", "houve",
  "houvemos", "houveram", "houvera", "houvéramos", "haja", "hajamos", "hajam", "houvesse", "houvéssemos",
  "houvessem", "houver", "houvermos", "houverem", "houverei", "houverá", "houveremos", "houverão", "houveria",
  "houveríamos", "houveriam", "sou", "somos", "são", "era", "éramos", "eram", "fui", "foi", "fomos", "foram",
  "fora", "fôramos", "seja", "sejamos", "sejam", "fosse", "fôssemos", "fossem", "for", "formos", "forem",
  "serei", "será", "seremos", "serão", "seria", "seríamos", "seriam", "tenho", "tem", "temos", "tém", "tinha",
  "tínhamos", "tinham", "tive", "teve", "tivemos", "tiveram", "tivera", "tivéramos", "tenha", "tenhamos",
  "tenham", "tivesse", "tivéssemos", "tivessem", "tiver", "tivermos", "tiverem", "terei", "terá", "teremos",
  "terão", "teria", "teríamos", "teriam", "fazer", "dizer", "ir", "dar", "ver", "saber", "poder", "querer"]

/-- `COMMON_WORDS[lang]`: the word set of a language tag, or `none` for an
unknown tag.  Membership in the JS `Set` equals membership in the list. -/
def commonWordsFor (lang : String) : Option (List String) :=
  if lang = "en" then some COMMON_WORDS_en
  else if lang = "fr" then some COMMON_WORDS_fr
  else if lang = "de" then some COMMON_WORDS_de
  else if lang = "pt" then some COMMON_WORDS_pt
  else none

/-- `detectSentenceLanguages(sentence, languagesToCheck)` (lines 114–137):
lowercase, tokenize, require at least 3 tokens, and attribute every
candidate language whose common-word match ratio strictly exceeds 0.40
(`matchCount / words.length > 0.4`, decided exactly as `5·m > 2·n`). -/
def detectSentenceLanguages (sentence : String)
    (languagesToCheck : List String := ["en", "fr", "de", "pt"]) : List String :=
  let words := tokenize (sentence.data.map jsToLower)
  if words.length < 3 then []
  else
    languagesToCheck.filter fun lang =>
      match commonWordsFor lang with
      | none => false
      | some wordSet =>
        let matchCount := (words.filter fun w => wordSet.contains (String.mk w)).length
        5 * matchCount > 2 * words.length

/-! ## Content filter (`removeLanguageSentences`, lines 140–226) -/

structure FilterStats where
  original : Nat
  cleaned : Nat
  removed : Int
  /-- `Math.round(percentRemaining * 100)`: the source stores
  `Math.round(p * 100) / 100`; we store the numerator of that two-decimal
  fraction (the value scaled by 100), which keeps the record computable by
  the kernel.  `percentRemainingQ` recovers the fraction. -/
  percentRemaining100 : Nat
  sentencesOriginal : Nat
  sentencesKept : Nat
  sentencesRemoved : Nat
  languageCounts : List (String × Nat)
  deriving Repr, DecidableEq

structure FilterResult where
  cleanedText : String
  stats : FilterStats
  deriving Repr, DecidableEq

/-- `Math.round`: round half toward positive infinity. -/
def jsRound (q : ℚ) : ℤ := ⌊q + 1 / 2⌋

/-- `Math.round(100 * c / o)` for `o > 0`, in integer arithmetic:
`⌊100c/o + 1/2⌋ = (200c + o) / (2o)`.  (`jsRound100_eq_jsRound` proves the
agreement with the rational formula.) -/
def jsRound100 (c o : Nat) : Nat := (200 * c + o) / (2 * o)

/-- The fraction the source stores in `stats.percentRemaining`. -/
def percentRemainingQ (st : FilterStats) : ℚ := (st.percentRemaining100 : ℚ) / 100

/-- Bump a key of the insertion-ordered count map `languageCounts`. -/
def bumpCount (m : List (String × Nat)) (k : String) : List (String × Nat) :=
  if m.any fun p => p.1 = k then
    m.map fun p => if p.1 = k then (p.1, p.2 + 1) else p
  else m ++ [(k, 1)]

/-- State of the sentence loop of lines 179–207: kept sentences, removed
sentences, and the language count map. -/
structure LoopState where
  kept : List Chars
  removed : List Chars
  counts : List (String × Nat)
  deriving Repr, DecidableEq

/-- One iteration of the sentence loop (lines 179–207). -/
def filterSentenceStep (languagesToRemove : List String) (st : LoopState)
    (sentence : Chars) : LoopState :=
  let trimmed := trimChars sentence
  if trimmed.length < 3 then
    { st with kept := st.kept ++ [sentence] }
  else
    let detected := detectSentenceLanguages (String.mk trimmed)
    let counts :=
      if detected = [] then bumpCount st.counts "other"
      else detected.foldl bumpCount st.counts
    let shouldRemove := detected.any fun lang => languagesToRemove.contains lang
    if shouldRemove then
      { kept := st.kept, removed := st.removed ++ [sentence], counts := counts }
    else
      { kept := st.kept ++ [sentence], removed := st.removed, counts := counts }

def filterLoop (languagesToRemove : List String) (sentences : List Chars) : LoopState :=
  sentences.foldl (filterSentenceStep languagesToRemove)
    { kept := [], removed := [], counts := [] }

/-- Insert `' '` between the kept sentences: `keptSentences.join(' ')`. -/
def joinSpace (ls : List Chars) : Chars := (ls.intersperse [' ']).flatten

/-- `removeLanguageSentences(text, languagesToRemove)` (lines 140–226).
Splits the text into sentences, appends any unterminated trailing fragment,
removes each sufficiently long sentence whose attributed language set meets
`languagesToRemove`, and rejoins the survivors with single spaces.
`percentRemaining` is the remaining fraction rounded to two decimals
(`Math.round(p * 100) / 100`), modelled exactly over `ℚ`. -/
def removeLanguageSentences (text : String)
    (languagesToRemove : List String := ["en"]) : FilterResult :=
  if (jsTrim text).length = 0 then
    { cleanedText := ""
      stats := { original := 0, cleaned := 0, removed := 0, percentRemaining100 := 0,
                 sentencesOriginal := 0, sentencesKept := 0, sentencesRemoved := 0,
                 languageCounts := [] } }
  else
    let originalLength := text.length
    let matched := matchedSentences text.data
    let lastMatchEnd := matched.flatten.length
    let remainingText := trimChars (text.data.drop lastMatchEnd)
    let sentences0 := if remainingText ≠ [] then matched ++ [remainingText] else matched
    let sentences := if sentences0 = [] then [text.data] else sentences0
    let st := filterLoop languagesToRemove sentences
    let cleanedChars := trimChars (joinSpace st.kept)
    let cleanedLength := cleanedChars.length
    { cleanedText := ⟨cleanedChars⟩
      stats := { original := originalLength
                 cleaned := cleanedLength
                 removed := (originalLength : Int) - cleanedLength
                 percentRemaining100 :=
                   if originalLength > 0 then jsRound100 cleanedLength originalLength
                   else 0
                 sentencesOriginal := sentences.length
                 sentencesKept := st.kept.length
                 sentencesRemoved := st.removed.length
                 languageCounts := st.counts } }

/-- `CLEAN_THRESHOLD = 0.15` (line 16), scaled by 100 like
`percentRemaining100`: the source's `percentRemaining > 0.15` is
`round(p*100)/100 > 15/100`, i.e. `percentRemaining100 > 15`
(the comparison of two-decimal fractions equals the comparison of their
numerators, also in the source's floating point at these magnitudes). -/
def CLEAN_THRESHOLD100 : Nat := 15

/-- The Pass-2 gate of `processBatch` (line 959) and of the dry run
(line 513): `needsAI = pass1Result.stats.percentRemaining > CLEAN_THRESHOLD`. -/
def needsAIForContent (content : String) (languagesToRemove : List String) : Bool :=
  (removeLanguageSentences content languagesToRemove).stats.percentRemaining100
    > CLEAN_THRESHOLD100

/-! ## Orchestrator data model (`processBatch`, lines 739–1433)

The `jobs` row as read and written by the orchestrator.  Timestamp columns
(`updated_date`, `started_at`, `last_batch_at`) carry no control flow and
are omitted. -/

structure JobRow where
  id : Nat
  status : String
  current_batch_offset : Nat
  total_records : Nat
  processed_records : Nat
  failed_records : Nat
  pass1_processed : Nat
  pass1_cleaned : Nat
  pass2_needed : Nat
  pass2_processed : Nat
  is_processing_batch : Bool
  details : String
  deriving Repr, DecidableEq

/-- The instance configuration fields the orchestrator reads.
`enable_two_pass = some false` models the column holding SQL `false`
(`instance.enable_two_pass !== false`); an empty `languages_to_remove`
models a falsy column (`instance.languages_to_remove || 'en'`); a
`vector_field_name` of `none` or `some ""` is falsy. -/
structure InstanceRow where
  enable_two_pass : Option Bool
  languages_to_remove : String
  prompt : String
  vector_field_name : Option String
  deriving Repr, DecidableEq

/-- A collection row: `content` is the value of the instance's target
field, `vector` the value of its vector field. -/
structure StoreRec where
  id : Nat
  content : String
  changed_flag : String
  vector : Option (List Int)
  deriving Repr, DecidableEq

/-- The record store's paginated query
(`/v2/vectordb/entities/query` with `filter`, `offset`, `limit`):
the rows matching the filter, from `offset`, at most `limit` of them. -/
def zillizQuery (rows : List StoreRec) (filterPred : StoreRec → Bool)
    (offset limit : Nat) : List StoreRec :=
  ((rows.filter filterPred).drop offset).take limit

def BATCH_SIZE : Nat := 25
def MAX_CONTENT_LENGTH : Nat := 100000
def MAX_BATCH_RETRIES : Nat := 3
def ZILLIZ_MAX_LIMIT : Nat := 16384

/-! ### The `[pagecontent]` tag regex `/\[pagecontent\](.*?)\[\/pagecontent\]/gs` -/

/-- Index of the first occurrence of `pat` in `l`, if any. -/
def strIdxOf (pat : Chars) : Chars → Option Nat
  | [] => if pat = [] then some 0 else none
  | l@(_ :: cs) =>
    if pat.isPrefixOf l then some 0
    else (strIdxOf pat cs).map (· + 1)

def PC_OPEN : Chars := "[pagecontent]".data
def PC_CLOSE : Chars := "[/pagecontent]".data

/-- Group 1 of the first match of the tag regex: the text between the
leftmost `[pagecontent]` that is followed by a close tag and the nearest
`[/pagecontent]` after it (the group is non-greedy).  `none` when the
regex does not match. -/
def extractPCAux : Chars → Option Chars
  | [] => none
  | l@(_ :: cs) =>
    if PC_OPEN.isPrefixOf l then
      match strIdxOf PC_CLOSE (l.drop PC_OPEN.length) with
      | some j => some ((l.drop PC_OPEN.length).take j)
      | none => extractPCAux cs
    else extractPCAux cs

/-- `originalContent.replace(tagRegex, "[pagecontent]" + processed + "[/pagecontent]")`:
replace every match of the tag regex.  `fuel` bounds the scan (each step
consumes at least one character, so `l.length` suffices). -/
def replacePCAllAux (fuel : Nat) (repl : Chars) (l : Chars) : Chars :=
  match fuel, l with
  | 0, l => l
  | _ + 1, [] => []
  | fuel + 1, c :: cs =>
    if PC_OPEN.isPrefixOf (c :: cs) then
      match strIdxOf PC_CLOSE ((c :: cs).drop PC_OPEN.length) with
      | some j =>
        (PC_OPEN ++ repl ++ PC_CLOSE)
          ++ replacePCAllAux fuel repl
            ((c :: cs).drop (PC_OPEN.length + j + PC_CLOSE.length))
      | none => c :: replacePCAllAux fuel repl cs
    else c :: replacePCAllAux fuel repl cs

def replacePCAll (repl : Chars) (l : Chars) : Chars :=
  replacePCAllAux l.length repl l

/-! ### The batch response splitter `fullResponse.split(/\[RECORD \d+\]/)` -/

/-- Length of the match of `/\[RECORD \d+\]/` at the head of `l`, if any.
The literal 8 is the length of the fixed part `"[RECORD "`. -/
def recordMarkerLen (l : Chars) : Option Nat :=
  if "[RECORD ".data.isPrefixOf l then
    if ((l.drop 8).takeWhile Char.isDigit) = [] then none
    else if (l.drop (8 + ((l.drop 8).takeWhile Char.isDigit).length)).head?
        = some ']' then
      some (8 + ((l.drop 8).takeWhile Char.isDigit).length + 1)
    else none
  else none

/-- `split` on every match of the record-marker regex, scanning left to
right; `acc` holds the current piece, reversed, and `fuel` bounds the scan
(each step consumes at least one character). -/
def splitRecordMarkersAux (fuel : Nat) (acc : Chars) (l : Chars) : List Chars :=
  match fuel, l with
  | 0, _ => [acc.reverse]
  | _ + 1, [] => [acc.reverse]
  | fuel + 1, c :: cs =>
    match recordMarkerLen (c :: cs) with
    | some n => acc.reverse :: splitRecordMarkersAux fuel [] ((c :: cs).drop n)
    | none => splitRecordMarkersAux fuel (c :: acc) cs

def splitRecordMarkers (l : Chars) : List Chars := splitRecordMarkersAux l.length [] l

/-! ### One orchestrator tick -/

/-- The outcome of each external interaction of one `processBatch`
invocation, supplied as an input: which rows the collection holds during
this tick, how the filter string evaluates at the store, and whether each
fallible call fails (after its local `withRetry` budget, which is folded
into the single outcome). -/
structure TickEnv where
  jobMissing : Bool
  instanceRow : Option InstanceRow
  store : List StoreRec
  filterPred : StoreRec → Bool
  allCountFails : Bool
  countFails : Bool
  pageFetchFails : Bool
  aiBatch : Except String String
  aiIndividual : Nat → Option String
  embedOracle : Nat → Option (List Int)
  deleteFails : Bool
  insertFails : Bool
  overTimeBudget : Bool

/-- Which `return` of `processBatch` ended the tick, including whether a
further invocation was scheduled (`batchRetryScheduled`, `batchSkipNext`,
`timeBudgetReschedule`, `continueNext`, `zeroTotalContinue` all end in
`setTimeout(() => processBatch(...))`). -/
inductive TickExit where
  | jobNotFound
  | cancelled
  | alreadyCompleted
  | mutexSkip
  | fatalInstanceMissing
  | fatalError (msg : String)
  | completedNoRecords
  | batchRetryScheduled (nextRetry : Nat)
  | batchSkipNext
  | timeBudgetReschedule
  | zeroTotalContinue
  | completedByCount
  | continueNext
  deriving Repr, DecidableEq

/-- `(instance.languages_to_remove || 'en').split(',').map(l => l.trim())`. -/
def splitLanguages (s : String) : List String :=
  ((if s = "" then "en" else s).data.splitOn ',').map fun l => String.mk (trimChars l)

/-- `instance.enable_two_pass !== false`. -/
def enableTwoPassOf (inst : InstanceRow) : Bool := inst.enable_two_pass ≠ some false

/-- A truthiness test of `instance.vector_field_name`. -/
def hasVectorField (inst : InstanceRow) : Bool :=
  match inst.vector_field_name with
  | some s => s ≠ ""
  | none => false

/-- One element of `recordsWithPass1` (lines 939–971). -/
structure RecWithPass1 where
  record : StoreRec
  idx : Nat
  originalContent : String
  hasTag : Bool
  pass1Result : Option FilterResult
  needsAI : Bool
  pass1Cleaned : Bool
  deriving Repr, DecidableEq

/-- Lines 939–971: extract the `[pagecontent]` body if tagged, truncate to
`MAX_CONTENT_LENGTH`, run Pass 1 when two-pass processing is enabled, and
record whether the record needs Pass 2. -/
def prepareRecord (languagesToRemove : List String) (enableTwoPass : Bool)
    (idx : Nat) (rec : StoreRec) : RecWithPass1 :=
  let raw := rec.content
  let tagged := extractPCAux raw.data
  let content0 := match tagged with | some inner => String.mk inner | none => raw
  let content :=
    if content0.length > MAX_CONTENT_LENGTH
    then String.mk (content0.data.take MAX_CONTENT_LENGTH) else content0
  if enableTwoPass then
    let needs := needsAIForContent content languagesToRemove
    { record := rec, idx := idx, originalContent := content, hasTag := tagged.isSome
      pass1Result := some (removeLanguageSentences content languagesToRemove)
      needsAI := needs, pass1Cleaned := !needs }
  else
    { record := rec, idx := idx, originalContent := content, hasTag := tagged.isSome
      pass1Result := none, needsAI := true, pass1Cleaned := false }

/-- `enableTwoPass ? r.pass1Result.cleanedText : r.originalContent`. -/
def contentForAI (enableTwoPass : Bool) (r : RecWithPass1) : String :=
  if enableTwoPass then
    match r.pass1Result with
    | some p => p.cleanedText
    | none => ""
  else r.originalContent

/-- One element of `batchPrompts` (lines 1004–1008):
`instance.prompt.replace(/{{FIELD_VALUE}}/g, contentForAI)`. -/
structure BatchPrompt where
  idx : Nat
  prompt : String
  content : String
  deriving Repr, DecidableEq

/-- `str.replace(/pat/g, repl)` for a fixed non-empty pattern: replace
every non-overlapping occurrence, scanning left to right.  `fuel` bounds
the scan (each step consumes at least one character). -/
def replaceAllSub (fuel : Nat) (pat repl : Chars) : Chars → Chars :=
  fun l =>
    match fuel, l with
    | 0, l => l
    | _ + 1, [] => []
    | fuel + 1, c :: cs =>
      if pat ≠ [] ∧ pat.isPrefixOf (c :: cs) then
        repl ++ replaceAllSub fuel pat repl ((c :: cs).drop pat.length)
      else c :: replaceAllSub fuel pat repl cs

def jsReplaceAll (s pat repl : String) : String :=
  ⟨replaceAllSub s.data.length pat.data repl.data s.data⟩

def batchPromptsOf (inst : InstanceRow) (enableTwoPass : Bool)
    (aiNeeded : List RecWithPass1) : List BatchPrompt :=
  aiNeeded.map fun r =>
    let c := contentForAI enableTwoPass r
    { idx := r.idx
      prompt := jsReplaceAll inst.prompt "\x7b\x7bFIELD_VALUE\x7d\x7d" c
      content := c }

/-- Line 1010: `batchPrompts.map((p, i) => "[RECORD " + (i+1) + "]\n" + p.prompt).join("\n\n---\n\n")`. -/
def combinedPromptOf (prompts : List BatchPrompt) : String :=
  String.intercalate "\n\n---\n\n"
    (prompts.enum.map fun p => "[RECORD " ++ toString (p.1 + 1) ++ "]\n" ++ p.2.prompt)

/-- Outcome of Pass 2 over one page: no record needed the model, a map from
record index to (trimmed) model response, or a failed combined-batch call. -/
inductive Pass2Outcome where
  | noAI
  | responses (m : List (Nat × String))
  | batchFailure (msg : String)
  deriving Repr, DecidableEq

/-- Lines 1097–1103: split the combined response on the index markers, drop
the prefix before the first marker, trim each piece, and fail when the
count differs from the expected record count. -/
def parseBatchAIResponse (full : String) (expected : Nat) : Except String (List String) :=
  let aiResponses := ((splitRecordMarkers full.data).drop 1).map
    fun l => String.mk (trimChars l)
  if aiResponses.length ≠ expected then
    .error ("AI returned " ++ toString aiResponses.length
      ++ " responses but expected " ++ toString expected)
  else .ok aiResponses

/-- Pass 2 dispatch (lines 1000–1150): when the combined prompt exceeds
50,000 characters every record of the group is sent as its own completion
request (per-record success or failure, isolated); otherwise the whole
group is sent as one combined request whose parsed response must contain
exactly one piece per record.  The second component counts the completion
requests issued (one per record or one for the group; the inner
`withRetry` re-attempts of a transient failure are folded into the
oracle's outcome). -/
def runPass2 (inst : InstanceRow) (enableTwoPass : Bool)
    (aiNeeded : List RecWithPass1) (env : TickEnv) : Pass2Outcome × Nat :=
  if aiNeeded.isEmpty then (.noAI, 0)
  else
    let prompts := batchPromptsOf inst enableTwoPass aiNeeded
    let combinedSize := (combinedPromptOf prompts).length
    if combinedSize > 50000 then
      (.responses (prompts.filterMap fun p =>
        (env.aiIndividual p.idx).map fun s => (p.idx, jsTrim s)),
       prompts.length)
    else
      match env.aiBatch with
      | .error msg => (.batchFailure msg, 1)
      | .ok full =>
        match parseBatchAIResponse full aiNeeded.length with
        | .error msg => (.batchFailure msg, 1)
        | .ok aiResponses =>
          (.responses ((aiNeeded.map (·.idx)).zip aiResponses), 1)

/-- `aiResponsesByIdx[idx]` as a truthiness test (lines 1164 and 1257):
present and non-empty. -/
def truthyLookup (m : List (Nat × String)) (i : Nat) : Option String :=
  match (m.find? fun p => p.1 = i).map (·.2) with
  | some s => if s = "" then none else some s
  | none => none

def aiMapOf : Pass2Outcome → List (Nat × String)
  | .responses m => m
  | _ => []

/-- Lines 1254–1265: the record's final content and which pass produced it. -/
def finalContentOf (aiMap : List (Nat × String)) (r : RecWithPass1) : String :=
  match truthyLookup aiMap r.idx with
  | some s => s
  | none =>
    match r.pass1Result with
    | some p => p.cleanedText
    | none => r.originalContent

/-- Lines 1267–1287: the row written back to the store — the processed
content re-wrapped in its tags when the original was tagged, the `done`
marker, and the refreshed vector when one was produced. -/
def updatedRecordOf (inst : InstanceRow) (aiMap : List (Nat × String))
    (embMap : List (Nat × List Int)) (r : RecWithPass1) : StoreRec :=
  let processed := finalContentOf aiMap r
  let orig := r.record.content
  let updatedContent :=
    if (extractPCAux orig.data).isSome
    then String.mk (replacePCAll processed.data orig.data)
    else processed
  let vec :=
    if hasVectorField inst then
      match (embMap.find? fun p => p.1 = r.idx).map (·.2) with
      | some e => some e
      | none => r.record.vector
    else r.record.vector
  { r.record with content := updatedContent, changed_flag := "done", vector := vec }

/-- Lines 928–1410 of `processBatch`, from the point where a non-empty
page has been fetched: two-pass processing, Pass 2 dispatch, embeddings,
the wall-clock guard, the write-back, the counter update and the
completion decision.  `job` is the row as read at the start of the tick
(the source computes every `new...` value from it), `job2` the row as
already written back (flag set, status/total resolved). -/
def processPage (job job2 : JobRow) (inst : InstanceRow) (currentRetry : Nat)
    (totalRecordsToProcess : Nat) (records : List StoreRec) (env : TickEnv) :
    JobRow × TickExit :=
  let enableTwoPass := enableTwoPassOf inst
  let languagesToRemove := splitLanguages inst.languages_to_remove
  let recordsWithPass1 :=
    (records.enum.map fun p =>
      prepareRecord languagesToRemove enableTwoPass p.1 p.2)
  let aiNeededRecords := recordsWithPass1.filter (·.needsAI)
  match runPass2 inst enableTwoPass aiNeededRecords env with
  | (.batchFailure _, _) =>
    if currentRetry < MAX_BATCH_RETRIES then
      -- lines 1114–1125: clear the flag and re-run with retry+1
      ({ job2 with is_processing_batch := false },
       .batchRetryScheduled (currentRetry + 1))
    else
      -- lines 1128–1145: mark the page failed, advance, continue
      ({ job2 with
          current_batch_offset := job.current_batch_offset + records.length
          failed_records := job.failed_records + records.length
          is_processing_batch := false }, .batchSkipNext)
  | (outcome, _) =>
    let aiMap := aiMapOf outcome
    if env.overTimeBudget then
      -- lines 1220–1236: persist nothing but the flag, reschedule
      ({ job2 with is_processing_batch := false }, .timeBudgetReschedule)
    else
      -- lines 1249–1325: build and write the updated rows
      let pass2ProcessedCount := (recordsWithPass1.filter fun r =>
        (truthyLookup aiMap r.idx).isSome).length
      let pass1CleanedCount := (recordsWithPass1.filter fun r =>
        (truthyLookup aiMap r.idx).isNone ∧ r.pass1Result.isSome).length
      let embMap :=
        if hasVectorField inst then
          recordsWithPass1.filterMap fun r =>
            (env.embedOracle r.idx).map fun e => (r.idx, e)
        else []
      let updatedRecords := recordsWithPass1.map
        (updatedRecordOf inst aiMap embMap)
      let successCount :=
        if env.insertFails then 0 else records.length
      let failCount :=
        if env.insertFails then updatedRecords.length else 0
      -- lines 1328–1347: advance the cursor and the counters
      let job3 : JobRow :=
        { job2 with
            current_batch_offset := job.current_batch_offset + records.length
            processed_records := job.processed_records + successCount
            failed_records := job.failed_records + failCount
            pass1_processed := job.pass1_processed + records.length
            pass1_cleaned := job.pass1_cleaned + pass1CleanedCount
            pass2_needed := job.pass2_needed + pass2ProcessedCount
            pass2_processed := job.pass2_processed + pass2ProcessedCount
            is_processing_batch := false }
      -- lines 1363–1379: guard against an unresolved total
      let totalUsed :=
        if totalRecordsToProcess = 0 then job3.total_records
        else totalRecordsToProcess
      if totalUsed = 0 then (job3, .zeroTotalContinue)
      else if job.processed_records + successCount
          + (job.failed_records + failCount) ≥ totalUsed then
        -- lines 1381–1404
        ({ job3 with
            status := "completed"
            details := "completed summary" }, .completedByCount)
      else (job3, .continueNext)

/-- Lines 884–926 of `processBatch`: fetch one page; a fetch failure takes
the fatal path, an empty page completes the job, otherwise the page is
processed. -/
def processBatchFetch (job job2 : JobRow) (inst : InstanceRow)
    (currentRetry : Nat) (totalRecordsToProcess : Nat) (env : TickEnv) :
    JobRow × TickExit :=
  if env.pageFetchFails then
    ({ job2 with
        status := "failed"
        details := "page query failed"
        is_processing_batch := false }, .fatalError "page query failed")
  else
    let records := zillizQuery env.store env.filterPred
      job.current_batch_offset BATCH_SIZE
    if records.isEmpty then
      -- lines 915–926
      ({ job2 with
          status := "completed"
          details := "All records processed"
          is_processing_batch := false }, .completedNoRecords)
    else processPage job job2 inst currentRetry totalRecordsToProcess records env

/-- `processBatch(jobId, currentRetry)` (lines 742–1433), as a function of
the job row it reads, its retry argument, and the outcome of every
external call.  Returns the job row as left in the database and the exit
taken.  The `jobLogs` inserts and all timestamps are elided; the final
`catch` (lines 1411–1432) is reached exactly by the modelled fallible
calls that are not individually guarded (the unguarded full-collection
count of line 822 and the page fetch of line 895). -/
def processBatchStep (job : JobRow) (currentRetry : Nat) (env : TickEnv) :
    JobRow × TickExit :=
  if env.jobMissing then (job, .jobNotFound)
  else if job.status = "cancelled" then (job, .cancelled)
  else if job.status = "completed" then (job, .alreadyCompleted)
  else if job.is_processing_batch then (job, .mutexSkip)
  else
    -- lines 776–778: set the processing flag
    let job1 : JobRow := { job with is_processing_batch := true }
    match env.instanceRow with
    | none =>
      -- lines 786–791: the update sets only status and details;
      -- `is_processing_batch` keeps the value just written (true)
      ({ job1 with status := "failed", details := "Instance not found" },
       .fatalInstanceMissing)
    | some inst =>
      -- lines 806–881: resolve the total on a pending tick
      if job.status = "pending" ∧ env.allCountFails then
        ({ job1 with
            status := "failed"
            details := "count query failed"
            is_processing_batch := false }, .fatalError "count query failed")
      else
        let job2 : JobRow :=
          if job.status = "pending" then
            if env.countFails then { job1 with status := "running" }
            else
              { job1 with
                status := "running"
                total_records :=
                  (zillizQuery env.store env.filterPred 0 ZILLIZ_MAX_LIMIT).length }
          else job1
        let totalRecordsToProcess : Nat :=
          if job.status = "pending" ∧ ¬env.countFails then
            (zillizQuery env.store env.filterPred 0 ZILLIZ_MAX_LIMIT).length
          else job.total_records
        processBatchFetch job job2 inst currentRetry totalRecordsToProcess env

/-! ## Recovery scheduler (`src/server/workers/scheduler.js`, lines 34–86) -/

/-- What `resumeJobs` does with one job of its result set. -/
inductive ResumeAction where
  | notSelected
  | skipProcessing
  | skipAllFailed
  | skipMajorityFailed
  | retryFailed
  | resumeRunning
  deriving Repr, DecidableEq

/-- The per-job decision of `resumeJobs` (lines 39–81): jobs outside
`['running', 'failed']` are not selected; a set `is_processing_batch` flag
skips the job; a failed job is skipped when `failed_records >=
total_records && total_records > 0` or when `total_records > 0 &&
failed_records / total_records > 0.5`; otherwise a failed job is retried
and a running job resumed. -/
def resumeDecision (j : JobRow) : ResumeAction :=
  if ¬(j.status = "running" ∨ j.status = "failed") then .notSelected
  else if j.is_processing_batch then .skipProcessing
  else if j.status = "failed" then
    if j.failed_records ≥ j.total_records ∧ 0 < j.total_records then .skipAllFailed
    else if 0 < j.total_records ∧
        (j.failed_records : ℚ) / (j.total_records : ℚ) > 1 / 2 then .skipMajorityFailed
    else .retryFailed
  else .resumeRunning

/-- The effect of `resumeJobs` on one job: the row as left in the database
and whether `processBatch` was invoked for it. -/
def resumeJobsStep (j : JobRow) : JobRow × Bool :=
  match resumeDecision j with
  | .retryFailed => ({ j with status := "running" }, true)
  | .resumeRunning => (j, true)
  | _ => (j, false)

/-- The instance columns `processScheduledInstances` reads.  Times are in
minutes (the source compares `last_run + schedule_interval` minutes
against `now`). -/
structure SchedInstanceRow where
  id : Nat
  status : String
  schedule_interval : Int
  last_run : Option Int
  deriving Repr, DecidableEq

/-- Lines 112–122: an instance is due when it has never run, or when
`last_run + schedule_interval minutes` is not after `now`. -/
def instanceDue (now : Int) (inst : SchedInstanceRow) : Bool :=
  match inst.last_run with
  | none => true
  | some lr => ¬(lr + inst.schedule_interval > now)

/-- `processInstance` (lines 134–175): the job-creation block is a
commented-out TODO, so the function creates no job; it only stamps the
instance's `last_run`.  The second component lists the ids of the jobs
created (always empty). -/
def processInstance (now : Int) (inst : SchedInstanceRow) :
    SchedInstanceRow × List Nat :=
  ({ inst with last_run := some now }, [])

/-- `processScheduledInstances` (lines 88–132): select active instances
with `schedule_interval > 0`, and process each that is due.  Returns the
instances as left in the database and all job ids created. -/
def processScheduledInstances (now : Int) (instances : List SchedInstanceRow) :
    List SchedInstanceRow × List Nat :=
  let act := fun (inst : SchedInstanceRow) =>
    if inst.status = "active" ∧ inst.schedule_interval > 0 then
      if instanceDue now inst then processInstance now inst else (inst, [])
    else (inst, [])
  ((instances.map fun i => (act i).1), (instances.map fun i => (act i).2).flatten)

/-! ## The mutex prologue under interleaving (lines 751–778)

Before any other write, one `processBatch` invocation performs two
separate awaited database operations: it reads the job row (line 751)
and — when the flag it read was clear and the status non-terminal — it
writes `is_processing_batch = true` (lines 776–778).  `MuxInv` is the
program counter of one invocation over this prologue; `muxStep` executes
one database operation of the chosen invocation atomically, so a schedule
lists the interleaving of the two invocations' database operations. -/

inductive MuxInv where
  | start
  | readDone (flagSeen : Bool)
  | proceeded
  | exited
  deriving Repr, DecidableEq

structure MuxWorld where
  flag : Bool
  a : MuxInv
  b : MuxInv
  deriving Repr, DecidableEq

/-- One database operation of one invocation: the read stores the flag
value seen; the check uses the value *read earlier* and, if it was clear,
writes the flag. -/
def muxAdvance (flag : Bool) : MuxInv → MuxInv × Bool
  | .start => (.readDone flag, flag)
  | .readDone f => if f then (.exited, flag) else (.proceeded, true)
  | s => (s, flag)

def muxStep (pickA : Bool) (w : MuxWorld) : MuxWorld :=
  if pickA then
    let r := muxAdvance w.flag w.a
    { flag := r.2, a := r.1, b := w.b }
  else
    let r := muxAdvance w.flag w.b
    { flag := r.2, a := w.a, b := r.1 }

def muxRun (sched : List Bool) (w : MuxWorld) : MuxWorld :=
  sched.foldl (fun w p => muxStep p w) w

/-- Both invocations at the start, flag clear in the job row. -/
def muxInit : MuxWorld := { flag := false, a := .start, b := .start }

/-! ## Concrete fixtures used by the theorems -/

/-- A freshly inserted job row (`/start`, lines 396–409). -/
def freshJob : JobRow :=
  { id := 1, status := "pending", current_batch_offset := 0, total_records := 0
    processed_records := 0, failed_records := 0, pass1_processed := 0
    pass1_cleaned := 0, pass2_needed := 0, pass2_processed := 0
    is_processing_batch := false, details := "" }

def sampleInstance : InstanceRow :=
  { enable_two_pass := none, languages_to_remove := ""
    prompt := "Rewrite: \x7b\x7bFIELD_VALUE\x7d\x7d", vector_field_name := none }

/-- The filter of an instance whose `query_filter` excludes already-done
records (the spec's own pagination mechanism, §4.5 step 6). -/
def notDonePred : StoreRec → Bool := fun r => r.changed_flag ≠ "done"

/-- An environment where every external call succeeds and the store is
empty; individual theorems override the fields they exercise. -/
def benignEnv : TickEnv :=
  { jobMissing := false, instanceRow := some sampleInstance, store := []
    filterPred := notDonePred, allCountFails := false, countFails := false
    pageFetchFails := false, aiBatch := .error "batch call failed"
    aiIndividual := fun _ => none, embedOracle := fun _ => none
    deleteFails := false, insertFails := false, overTimeBudget := false }

/-- A store of `n` trivial records, the first `doneBelow` ones already
marked `done`. -/
def emptyRecStore (n doneBelow : Nat) : List StoreRec :=
  (List.range n).map fun i =>
    { id := i, content := "", changed_flag := if i < doneBelow then "done" else ""
      vector := none }

/-! ## Helper lemmas about the orchestrator phases -/

theorem processPage_mono (job job2 : JobRow) (inst : InstanceRow) (cr tot : Nat)
    (records : List StoreRec) (env : TickEnv)
    (hp : job2.processed_records = job.processed_records)
    (hf : job2.failed_records = job.failed_records) :
    job.processed_records + job.failed_records ≤
      (processPage job job2 inst cr tot records env).1.processed_records
        + (processPage job job2 inst cr tot records env).1.failed_records := by
  unfold processPage
  rcases hr : runPass2 inst (enableTwoPassOf inst)
      ((records.enum.map fun p =>
        prepareRecord (splitLanguages inst.languages_to_remove)
          (enableTwoPassOf inst) p.1 p.2).filter (·.needsAI)) env with ⟨o, n⟩
  cases o <;> simp [hr] <;> repeat' split
  all_goals simp_all

theorem processBatchFetch_mono (job job2 : JobRow) (inst : InstanceRow)
    (cr tot : Nat) (env : TickEnv)
    (hp : job2.processed_records = job.processed_records)
    (hf : job2.failed_records = job.failed_records) :
    job.processed_records + job.failed_records ≤
      (processBatchFetch job job2 inst cr tot env).1.processed_records
        + (processBatchFetch job job2 inst cr tot env).1.failed_records := by
  unfold processBatchFetch
  split
  · simp [hp, hf]
  · dsimp only
    split
    · simp [hp, hf]
    · exact processPage_mono _ _ _ _ _ _ _ hp hf

theorem processBatchStep_mono (j : JobRow) (r : Nat) (env : TickEnv) :
    j.processed_records + j.failed_records ≤
      (processBatchStep j r env).1.processed_records
        + (processBatchStep j r env).1.failed_records := by
  unfold processBatchStep
  split
  · simp
  split
  · simp
  split
  · simp
  split
  · simp
  split
  · simp
  · dsimp only
    split
    · simp
    apply processBatchFetch_mono
    · split
      · split <;> rfl
      · rfl
    · split
      · split <;> rfl
      · rfl

theorem processPage_completedByCount (job job2 : JobRow) (inst : InstanceRow)
    (cr tot : Nat) (records : List StoreRec) (env : TickEnv)
    (h2t : job2.total_records = tot)
    (h : (processPage job job2 inst cr tot records env).2 = .completedByCount) :
    (processPage job job2 inst cr tot records env).1.status = "completed" ∧
    (processPage job job2 inst cr tot records env).1.total_records ≤
      (processPage job job2 inst cr tot records env).1.processed_records
        + (processPage job job2 inst cr tot records env).1.failed_records ∧
    0 < (processPage job job2 inst cr tot records env).1.total_records := by
  unfold processPage at h ⊢
  dsimp only at h ⊢
  rcases hr : runPass2 inst (enableTwoPassOf inst)
      ((records.enum.map fun p =>
        prepareRecord (splitLanguages inst.languages_to_remove)
          (enableTwoPassOf inst) p.1 p.2).filter (·.needsAI)) env with ⟨o, n⟩
  rw [hr] at h ⊢
  cases o <;> (repeat' split at h) <;> simp_all <;> omega

theorem processBatchFetch_completedByCount (job job2 : JobRow)
    (inst : InstanceRow) (cr tot : Nat) (env : TickEnv)
    (h2t : job2.total_records = tot)
    (h : (processBatchFetch job job2 inst cr tot env).2 = .completedByCount) :
    (processBatchFetch job job2 inst cr tot env).1.status = "completed" ∧
    (processBatchFetch job job2 inst cr tot env).1.total_records ≤
      (processBatchFetch job job2 inst cr tot env).1.processed_records
        + (processBatchFetch job job2 inst cr tot env).1.failed_records ∧
    0 < (processBatchFetch job job2 inst cr tot env).1.total_records := by
  unfold processBatchFetch at h ⊢
  dsimp only at h ⊢
  split at h
  · simp at h
  · split at h
    · simp at h
    · rename_i h1 h2
      rw [if_neg h1, if_neg h2]
      exact processPage_completedByCount _ _ _ _ _ _ _ h2t h

theorem processBatchStep_completedByCount (j : JobRow) (r : Nat) (env : TickEnv)
    (h : (processBatchStep j r env).2 = .completedByCount) :
    (processBatchStep j r env).1.status = "completed" ∧
    (processBatchStep j r env).1.total_records ≤
      (processBatchStep j r env).1.processed_records
        + (processBatchStep j r env).1.failed_records ∧
    0 < (processBatchStep j r env).1.total_records := by
  unfold processBatchStep at h ⊢
  dsimp only at h ⊢
  split at h
  · simp at h
  split at h
  · simp at h
  split at h
  · simp at h
  split at h
  · simp at h
  split at h
  · simp at h
  · split at h
    · simp at h
    · rename_i h1 h2 h3 h4 x inst heq h5
      rw [if_neg h1, if_neg h2, if_neg h3, if_neg h4]
      rw [if_neg h5]
      apply processBatchFetch_completedByCount _ _ _ _ _ _ _ h
      by_cases hp : j.status = "pending" <;> by_cases hc : env.countFails <;>
        simp [hp, hc]


theorem processPage_total (job job2 : JobRow) (inst : InstanceRow) (cr tot : Nat)
    (records : List StoreRec) (env : TickEnv) :
    (processPage job job2 inst cr tot records env).1.total_records
      = job2.total_records := by
  unfold processPage
  rcases hr : runPass2 inst (enableTwoPassOf inst)
      ((records.enum.map fun p =>
        prepareRecord (splitLanguages inst.languages_to_remove)
          (enableTwoPassOf inst) p.1 p.2).filter (·.needsAI)) env with ⟨o, n⟩
  cases o <;> simp [hr] <;> repeat' split
  all_goals simp_all

theorem processBatchFetch_total (job job2 : JobRow) (inst : InstanceRow)
    (cr tot : Nat) (env : TickEnv) :
    (processBatchFetch job job2 inst cr tot env).1.total_records
      = job2.total_records := by
  unfold processBatchFetch
  split
  · rfl
  · dsimp only
    split
    · rfl
    · exact processPage_total _ _ _ _ _ _ _

/-! ## The claims -/

def C1_env : TickEnv := { benignEnv with instanceRow := none }

def C1_envFetchFail : TickEnv := { benignEnv with pageFetchFails := true }

def C1_job : JobRow := { freshJob with status := "running", total_records := 30 }

/-- C1: the claim says every exit path of `processBatch` — including the
fatal path where the job's instance is not found — leaves
`is_processing_batch = false`.  Evaluating the orchestrator at a running
job whose instance row is missing shows the opposite: the update of lines
786–791 sets only `status` and `details`, so the flag written `true` at
lines 776–778 is left set (first conjunct), while the generic fatal
`catch` of lines 1411–1432 (here reached by a failing page query) does
clear it (second conjunct). -/
theorem C1_instance_missing_keeps_mutex_flag :
    ((processBatchStep C1_job 0 C1_env).1.status = "failed" ∧
     (processBatchStep C1_job 0 C1_env).1.is_processing_batch = true ∧
     (processBatchStep C1_job 0 C1_env).2 = .fatalInstanceMissing) ∧
    ((processBatchStep C1_job 0 C1_envFetchFail).1.status = "failed" ∧
     (processBatchStep C1_job 0 C1_envFetchFail).1.is_processing_batch = false) := by
  decide

/-- C2 (amended): across every orchestrator tick,
`processed_records + failed_records` never decreases; and every completion
declared by the counter check (lines 1381–1389) happens with the sum at or
*above* the job's `total_records` and the total positive — the check is
`>=`, not equality.  (Completion can also be declared by the empty-page
path of lines 915–926 with the sum strictly below the total; see the
counterexample.) -/
theorem C2_counter_monotone_and_completion :
    (∀ (j : JobRow) (r : Nat) (env : TickEnv),
      j.processed_records + j.failed_records ≤
        (processBatchStep j r env).1.processed_records
          + (processBatchStep j r env).1.failed_records) ∧
    (∀ (j : JobRow) (r : Nat) (env : TickEnv),
      (processBatchStep j r env).2 = .completedByCount →
      (processBatchStep j r env).1.status = "completed" ∧
      (processBatchStep j r env).1.total_records ≤
        (processBatchStep j r env).1.processed_records
          + (processBatchStep j r env).1.failed_records ∧
      0 < (processBatchStep j r env).1.total_records) :=
  ⟨processBatchStep_mono, processBatchStep_completedByCount⟩

def C2_wjob : JobRow := { freshJob with status := "running", total_records := 10 }

def C2_wenv : TickEnv := { benignEnv with store := emptyRecStore 10 0 }

theorem C2_witness :
    (processBatchStep C2_wjob 0 C2_wenv).1.status = "completed" ∧
    (processBatchStep C2_wjob 0 C2_wenv).1.total_records ≤
      (processBatchStep C2_wjob 0 C2_wenv).1.processed_records
        + (processBatchStep C2_wjob 0 C2_wenv).1.failed_records ∧
    0 < (processBatchStep C2_wjob 0 C2_wenv).1.total_records :=
  C2_counter_monotone_and_completion.2 C2_wjob 0 C2_wenv (by decide)

def C2_env1 : TickEnv := { benignEnv with store := emptyRecStore 30 0 }

def C2_env2 : TickEnv := { benignEnv with store := emptyRecStore 30 25 }

/-- C2 (counterexample): a job over 30 matching records resolves
`total_records = 30` and processes one page of 25, which the write-back
marks `done`; on the next tick the query at offset 25 over the 5 records
still matching returns nothing, and the empty-page path declares the job
completed with `processed + failed = 25 ≠ 30` — completion does *not*
fire exactly when the sum equals `total_records`. -/
theorem C2_counterexample :
    (processBatchStep (processBatchStep freshJob 0 C2_env1).1 0 C2_env2).1.status
        = "completed" ∧
    0 < (processBatchStep (processBatchStep freshJob 0 C2_env1).1 0
        C2_env2).1.total_records ∧
    (processBatchStep (processBatchStep freshJob 0 C2_env1).1 0
          C2_env2).1.processed_records
        + (processBatchStep (processBatchStep freshJob 0 C2_env1).1 0
          C2_env2).1.failed_records
      ≠ (processBatchStep (processBatchStep freshJob 0 C2_env1).1 0
          C2_env2).1.total_records := by
  decide

/-- C8 (amended): when the two invocations' mutex prologs are serialized
(one invocation's read-and-set completes before the other's read), exactly
one proceeds past the check and the other exits; and an invocation that
reads `is_processing_batch = true` leaves the job row completely
unchanged — no counter or offset mutation.  (When the two reads interleave
before either write, both invocations proceed; see the counterexample:
the select of line 751 and the update of lines 776–778 are two separate
awaited calls, not an atomic compare-and-swap.) -/
theorem C8_mutex_serialized_exactly_one :
    (∀ x : Bool,
      ((muxRun [x, x, !x, !x] muxInit).a = .proceeded ∧
        (muxRun [x, x, !x, !x] muxInit).b = .exited) ∨
      ((muxRun [x, x, !x, !x] muxInit).a = .exited ∧
        (muxRun [x, x, !x, !x] muxInit).b = .proceeded)) ∧
    (∀ (j : JobRow) (r : Nat) (env : TickEnv),
      j.is_processing_batch = true → (processBatchStep j r env).1 = j) := by
  constructor
  · decide
  · intro j r env h
    unfold processBatchStep
    split
    · rfl
    split
    · rfl
    split
    · rfl
    · rfl

def C8_job : JobRow := { freshJob with status := "running", is_processing_batch := true }

theorem C8_witness : (processBatchStep C8_job 0 benignEnv).1 = C8_job :=
  C8_mutex_serialized_exactly_one.2 C8_job 0 benignEnv rfl

/-- C8 (counterexample): under the schedule where both invocations read
the job row before either writes the flag (read A, read B, set A, set B),
*both* invocations proceed past the mutex check — the claim's "exactly one
proceeds" does not hold for every interleaving of the two awaited
database calls. -/
theorem C8_counterexample :
    (muxRun [true, false, true, false] muxInit).a = .proceeded ∧
    (muxRun [true, false, true, false] muxInit).b = .proceeded := by
  decide

/-- C9: on a pending tick whose count query succeeds, the resolved
`total_records` is the length of a single query response issued with
`limit = 16384`, and therefore never exceeds 16384, whatever the store
holds. -/
theorem C9_total_records_le_limit (j : JobRow) (r : Nat) (env : TickEnv)
    (inst : InstanceRow)
    (h1 : env.jobMissing = false) (h2 : j.status = "pending")
    (h3 : j.is_processing_batch = false) (h4 : env.instanceRow = some inst)
    (h5 : env.allCountFails = false) (h6 : env.countFails = false) :
    (processBatchStep j r env).1.total_records ≤ ZILLIZ_MAX_LIMIT := by
  unfold processBatchStep
  simp only [h1, h2, h3, h4, h5, h6]
  simp only [Bool.false_eq_true, if_false, reduceIte]
  simp only [String.reduceEq, true_and, and_true, false_and, and_false,
    not_false_eq_true, if_false, if_true, reduceIte]
  rw [processBatchFetch_total]
  simp only [zillizQuery, ZILLIZ_MAX_LIMIT, List.length_take, List.drop_zero]
  omega

def C9_env : TickEnv := { benignEnv with store := emptyRecStore 3 0 }

theorem C9_witness :
    (processBatchStep freshJob 0 C9_env).1.total_records ≤ ZILLIZ_MAX_LIMIT :=
  C9_total_records_le_limit freshJob 0 C9_env sampleInstance rfl rfl rfl rfl rfl rfl

/-- The integer rounding `jsRound100` agrees with the source's rational
formula `Math.round((c / o) * 100)`. -/
theorem jsRound100_eq_jsRound (c o : Nat) (h : 0 < o) :
    (jsRound100 c o : ℤ) = jsRound ((c : ℚ) / o * 100) := by
  unfold jsRound jsRound100
  have ho : ((o : ℚ)) ≠ 0 := by exact_mod_cast h.ne'
  have h2o : ((2 * o : ℕ) : ℚ) ≠ 0 := by
    push_cast
    simpa using ho
  have hrw : (c : ℚ) / o * 100 + 1 / 2
      = ((200 * c + o : ℕ) : ℚ) / ((2 * o : ℕ) : ℚ) := by
    field_simp
    ring
  rw [hrw, ← Int.natCast_floor_eq_floor (by positivity),
    Nat.floor_div_eq_div (α := ℚ)]

/-- `stats.percentRemaining100` as a function of the length statistics. -/
theorem percentRemaining100_eq (t : String) (ls : List String) :
    (removeLanguageSentences t ls).stats.percentRemaining100 =
      if 0 < (removeLanguageSentences t ls).stats.original
      then jsRound100 (removeLanguageSentences t ls).stats.cleaned
        (removeLanguageSentences t ls).stats.original
      else 0 := by
  unfold removeLanguageSentences
  split
  · rfl
  · dsimp only

/-- C3 (amended): with two-pass processing enabled, Pass 2 is skipped
exactly when the *rounded* remaining fraction
`Math.round(100 * cleaned / original) / 100` is at most the clean
threshold 0.15 — equivalently, when `200 * cleaned < 31 * original`
(i.e. `cleaned / original < 0.155`), not when the raw ratio is at most
0.15.  In particular a record retaining 10% of its original length skips
Pass 2 and one retaining 20% invokes it, as the claim's examples state;
but a record with, e.g., ratio 5/33 ≈ 0.1515 > 0.15 is also skipped (see
the counterexample). -/
theorem C3_pass2_gate (t : String) (ls : List String)
    (h : 0 < (removeLanguageSentences t ls).stats.original) :
    (needsAIForContent t ls = false ↔
      200 * (removeLanguageSentences t ls).stats.cleaned
        < 31 * (removeLanguageSentences t ls).stats.original) ∧
    (10 * (removeLanguageSentences t ls).stats.cleaned
        = (removeLanguageSentences t ls).stats.original →
      needsAIForContent t ls = false) ∧
    (5 * (removeLanguageSentences t ls).stats.cleaned
        = (removeLanguageSentences t ls).stats.original →
      needsAIForContent t ls = true) := by
  have hpr := percentRemaining100_eq t ls
  rw [if_pos h] at hpr
  have h2o : 0 < 2 * (removeLanguageSentences t ls).stats.original := by omega
  have key : needsAIForContent t ls = false ↔
      200 * (removeLanguageSentences t ls).stats.cleaned
        < 31 * (removeLanguageSentences t ls).stats.original := by
    rw [needsAIForContent, CLEAN_THRESHOLD100, hpr, jsRound100,
      decide_eq_false_iff_not, not_lt, ← Nat.lt_succ_iff,
      Nat.div_lt_iff_lt_mul h2o]
    omega
  refine ⟨key, fun h10 => ?_, fun h5 => ?_⟩
  · rw [key]
    omega
  · have hne : ¬needsAIForContent t ls = false := by
      rw [key]
      omega
    cases hb : needsAIForContent t ls
    · exact absurd hb hne
    · rfl

/-- C3 (counterexample): the text below cleans from 33 to 5 characters,
a remaining ratio of 5/33 ≈ 0.1515 — strictly above the threshold 0.15,
so the claim says Pass 2 is invoked; but the stored two-decimal fraction
is `Math.round(15.15) / 100 = 0.15`, the gate compares `0.15 > 0.15`,
and Pass 2 is skipped. -/
theorem C3_counterexample :
    needsAIForContent "the the the the the the you.aaaaa" ["en"] = false ∧
    (removeLanguageSentences "the the the the the the you.aaaaa"
        ["en"]).stats.original = 33 ∧
    (removeLanguageSentences "the the the the the the you.aaaaa"
        ["en"]).stats.cleaned = 5 ∧
    15 * (removeLanguageSentences "the the the the the the you.aaaaa"
        ["en"]).stats.original
      < 100 * (removeLanguageSentences "the the the the the the you.aaaaa"
        ["en"]).stats.cleaned := by
  decide

theorem C3_witness :
    needsAIForContent "the the the the the you da.aaa" ["en"] = false :=
  (C3_pass2_gate "the the the the the you da.aaa" ["en"] (by decide)).2.1 (by decide)

/-- C5: for a failed job whose `is_processing_batch` flag is clear, the
Recovery Scheduler resets it to `running` and re-invokes the orchestrator
exactly when neither `failed_records >= total_records` (with a positive
total) nor `failed_records / total_records > 0.5` holds; the float
quotient condition is decided exactly as `2 * failed > total`. -/
theorem C5_recoverability (j : JobRow)
    (hs : j.status = "failed") (hf : j.is_processing_batch = false) :
    ((resumeJobsStep j).2 = true ∧ (resumeJobsStep j).1.status = "running") ↔
      ¬((j.failed_records ≥ j.total_records ∧ 0 < j.total_records) ∨
        (0 < j.total_records ∧ 2 * j.failed_records > j.total_records)) := by
  have hq : (0 < j.total_records ∧
      (j.failed_records : ℚ) / (j.total_records : ℚ) > 1 / 2) ↔
      (0 < j.total_records ∧ 2 * j.failed_records > j.total_records) := by
    constructor
    · rintro ⟨ht, hd⟩
      refine ⟨ht, ?_⟩
      have ht' : (0 : ℚ) < (j.total_records : ℚ) := by exact_mod_cast ht
      rw [gt_iff_lt, lt_div_iff₀ ht'] at hd
      have : (j.total_records : ℚ) < 2 * (j.failed_records : ℚ) := by linarith
      exact_mod_cast this
    · rintro ⟨ht, hd⟩
      refine ⟨ht, ?_⟩
      have ht' : (0 : ℚ) < (j.total_records : ℚ) := by exact_mod_cast ht
      have hd' : (j.total_records : ℚ) < 2 * (j.failed_records : ℚ) := by
        exact_mod_cast hd
      rw [gt_iff_lt, lt_div_iff₀ ht']
      linarith
  unfold resumeJobsStep resumeDecision
  rw [hs, hf]
  simp only [String.reduceEq, or_true, not_true_eq_false, Bool.false_eq_true,
    if_false, if_true, reduceIte]
  by_cases h1 : j.failed_records ≥ j.total_records ∧ 0 < j.total_records
  · rw [if_pos h1]
    simp [h1]
  · rw [if_neg h1]
    by_cases h2 : 0 < j.total_records ∧
        (j.failed_records : ℚ) / (j.total_records : ℚ) > 1 / 2
    · rw [if_pos h2]
      have hn := hq.mp h2
      simp [hn]
    · rw [if_neg h2]
      have h2' : ¬(0 < j.total_records ∧ 2 * j.failed_records > j.total_records) :=
        fun hc => h2 (hq.mpr hc)
      simp [h1, h2']

def C5_job : JobRow :=
  { freshJob with status := "failed", total_records := 10, failed_records := 1 }

theorem C5_witness :
    (resumeJobsStep C5_job).2 = true ∧ (resumeJobsStep C5_job).1.status = "running" :=
  (C5_recoverability C5_job rfl rfl).mpr (by decide)

def C6_instance : SchedInstanceRow :=
  { id := 5, status := "active", schedule_interval := 5, last_run := none }

/-- C6: an active instance with scheduling enabled
(`schedule_interval = 5`) that has never run is due on the tick; the
scheduler stamps its `last_run` — but it starts *no* job: the job-creation
block of `processInstance` (scheduler.js lines 140–156) is a commented-out
TODO, so the list of jobs created is empty, contradicting the claim that a
new job is started for every due instance. -/
theorem C6_scheduler_creates_no_job :
    instanceDue 1000 C6_instance = true ∧
    (processScheduledInstances 1000 [C6_instance]).2 = [] ∧
    (processScheduledInstances 1000 [C6_instance]).1
      = [{ C6_instance with last_run := some 1000 }] := by
  decide

theorem detect_subset (s : String) (cand : List String) :
    ∀ l ∈ detectSentenceLanguages s cand, l ∈ cand := by
  unfold detectSentenceLanguages
  intro l hl
  dsimp only at hl
  split at hl
  · simp at hl
  · exact List.mem_of_mem_filter hl

theorem filterSentenceStep_removed (rem : List String)
    (hdisj : ∀ l ∈ (["en", "fr", "de", "pt"] : List String), l ∉ rem)
    (st : LoopState) (s : Chars) :
    (filterSentenceStep rem st s).removed = st.removed := by
  unfold filterSentenceStep
  dsimp only
  split
  · rfl
  ·
    have hsr : (detectSentenceLanguages (String.mk (trimChars s))).any
        (fun lang => rem.contains lang) = false := by
      rw [List.any_eq_false]
      intro x hx
      have hx4 := detect_subset (String.mk (trimChars s)) _ x hx
      intro hc
      exact hdisj x hx4 (List.elem_iff.mp hc)
    rw [hsr]
    rfl

theorem filterLoop_removed (rem : List String)
    (hdisj : ∀ l ∈ (["en", "fr", "de", "pt"] : List String), l ∉ rem)
    (sentences : List Chars) :
    (filterLoop rem sentences).removed = [] := by
  suffices h : ∀ st, ((sentences.foldl (filterSentenceStep rem) st).removed
      = st.removed) by
    simpa [filterLoop] using h _
  induction sentences with
  | nil => intro st; rfl
  | cons s ss ih =>
    intro st
    rw [List.foldl_cons, ih, filterSentenceStep_removed rem hdisj]

/-- C10: Language Attribution only ever returns tags from the candidate
list it is given — at the Content Filter's call site the default
`['en', 'fr', 'de', 'pt']` — and consequently a `languages_to_remove`
configuration containing no tag of that set (such as `es` or `it`) never
causes Pass 1 to remove a sentence. -/
theorem C10_attribution_subset_no_removal :
    (∀ s : String, ∀ l ∈ detectSentenceLanguages s,
      l ∈ (["en", "fr", "de", "pt"] : List String)) ∧
    (∀ (t : String) (rem : List String),
      (∀ l ∈ (["en", "fr", "de", "pt"] : List String), l ∉ rem) →
      (removeLanguageSentences t rem).stats.sentencesRemoved = 0) := by
  constructor
  · intro s
    exact detect_subset s _
  · intro t rem hdisj
    unfold removeLanguageSentences
    split
    · rfl
    · dsimp only
      rw [filterLoop_removed rem hdisj]
      rfl

theorem C10_witness :
    (removeLanguageSentences "The cat sat on the mat. xyzqq"
      ["es"]).stats.sentencesRemoved = 0 :=
  C10_attribution_subset_no_removal.2 "The cat sat on the mat. xyzqq" ["es"]
    (by decide)

set_option maxHeartbeats 1000000 in
set_option linter.unusedVariables false in
theorem processPage_batchSkip (job job2 : JobRow) (inst : InstanceRow)
    (cr tot : Nat) (records : List StoreRec) (env : TickEnv)
    (hpp : job2.processed_records = job.processed_records)
    (hff : job2.failed_records = job.failed_records)
    (hst : job2.status ≠ "failed")
    (h : (processPage job job2 inst cr tot records env).2 = .batchSkipNext) :
    MAX_BATCH_RETRIES ≤ cr ∧
    (processPage job job2 inst cr tot records env).1.current_batch_offset
      = job.current_batch_offset + records.length ∧
    (processPage job job2 inst cr tot records env).1.failed_records
      = job.failed_records + records.length ∧
    (processPage job job2 inst cr tot records env).1.processed_records
      = job.processed_records ∧
    (processPage job job2 inst cr tot records env).1.is_processing_batch = false ∧
    (processPage job job2 inst cr tot records env).1.status ≠ "failed" := by
  unfold processPage at h ⊢
  dsimp only at h ⊢
  rcases hr : runPass2 inst (enableTwoPassOf inst)
      ((records.enum.map fun p =>
        prepareRecord (splitLanguages inst.languages_to_remove)
          (enableTwoPassOf inst) p.1 p.2).filter (·.needsAI)) env with ⟨o, n⟩
  rw [hr] at h ⊢
  cases o <;> (repeat' split at h) <;> (repeat' split) <;> simp_all

theorem processBatchFetch_batchSkip (job job2 : JobRow) (inst : InstanceRow)
    (cr tot : Nat) (env : TickEnv)
    (hpp : job2.processed_records = job.processed_records)
    (hff : job2.failed_records = job.failed_records)
    (hst : job2.status ≠ "failed")
    (h : (processBatchFetch job job2 inst cr tot env).2 = .batchSkipNext) :
    MAX_BATCH_RETRIES ≤ cr ∧
    (processBatchFetch job job2 inst cr tot env).1.current_batch_offset
      = job.current_batch_offset
        + (zillizQuery env.store env.filterPred job.current_batch_offset
            BATCH_SIZE).length ∧
    (processBatchFetch job job2 inst cr tot env).1.failed_records
      = job.failed_records
        + (zillizQuery env.store env.filterPred job.current_batch_offset
            BATCH_SIZE).length ∧
    (processBatchFetch job job2 inst cr tot env).1.processed_records
      = job.processed_records ∧
    (processBatchFetch job job2 inst cr tot env).1.is_processing_batch = false ∧
    (processBatchFetch job job2 inst cr tot env).1.status ≠ "failed" := by
  unfold processBatchFetch at h ⊢
  dsimp only at h ⊢
  split at h
  · simp at h
  · split at h
    · simp at h
    · rename_i h1 h2
      rw [if_neg h1, if_neg h2]
      exact processPage_batchSkip _ _ _ _ _ _ _ hpp hff hst h

/-- C4: when the records needing Pass 2 fit in a combined prompt of at most
50,000 characters, exactly one completion request is issued for the whole
group (first conjunct: `runPass2` issues request count 1, per attempt, in
*every* outcome of the combined path); a parsed response whose piece count
differs from the expected record count fails the whole batch call (second
conjunct); and every batch-skip exit — which is reached exactly when the
combined call has failed with the retry budget exhausted — advances the
offset by the page length, adds the page length to `failed_records`,
leaves `processed_records` unchanged, clears `is_processing_batch`, does
not fail the job, and schedules the next page; it moreover implies the
retry budget was exhausted (`MAX_BATCH_RETRIES ≤ currentRetry`). -/
theorem C4_combined_batch_dispatch :
    (∀ (inst : InstanceRow) (etp : Bool) (aiNeeded : List RecWithPass1)
        (env : TickEnv),
      aiNeeded ≠ [] →
      (combinedPromptOf (batchPromptsOf inst etp aiNeeded)).length ≤ 50000 →
      (runPass2 inst etp aiNeeded env).2 = 1) ∧
    (∀ (full : String) (expected : Nat),
      ((splitRecordMarkers full.data).drop 1).length ≠ expected →
      ∃ msg, parseBatchAIResponse full expected = .error msg) ∧
    (∀ (j : JobRow) (r : Nat) (env : TickEnv),
      j.status ≠ "failed" →
      (processBatchStep j r env).2 = .batchSkipNext →
      MAX_BATCH_RETRIES ≤ r ∧
      (processBatchStep j r env).1.current_batch_offset
        = j.current_batch_offset
          + (zillizQuery env.store env.filterPred j.current_batch_offset
              BATCH_SIZE).length ∧
      (processBatchStep j r env).1.failed_records
        = j.failed_records
          + (zillizQuery env.store env.filterPred j.current_batch_offset
              BATCH_SIZE).length ∧
      (processBatchStep j r env).1.processed_records = j.processed_records ∧
      (processBatchStep j r env).1.is_processing_batch = false ∧
      (processBatchStep j r env).1.status ≠ "failed") := by
  refine ⟨?_, ?_, ?_⟩
  · intro inst etp aiNeeded env hne hle
    unfold runPass2
    have h1 : aiNeeded.isEmpty = false := by
      simpa [List.isEmpty_iff] using hne
    rw [h1]
    dsimp only [Bool.false_eq_true, if_false]
    rw [if_neg (by omega :
      ¬(combinedPromptOf (batchPromptsOf inst etp aiNeeded)).length > 50000)]
    cases henv : env.aiBatch with
    | error msg => rfl
    | ok full =>
      rcases hp : parseBatchAIResponse full aiNeeded.length with msg | res <;>
        simp [hp]
  · intro full expected hne
    have hlen : (((splitRecordMarkers full.data).drop 1).map
        (fun l => String.mk (trimChars l))).length ≠ expected := by
      simpa using hne
    unfold parseBatchAIResponse
    dsimp only
    exact ⟨_, if_pos hlen⟩
  · intro j r env hst h
    unfold processBatchStep at h ⊢
    split at h
    · simp at h
    split at h
    · simp at h
    split at h
    · simp at h
    split at h
    · simp at h
    split at h
    · simp at h
    · dsimp only at h ⊢
      split at h
      · simp at h
      · rename_i h1 h2 h3 h4 x inst heq h5
        rw [if_neg h1, if_neg h2, if_neg h3, if_neg h4]
        rw [if_neg h5]
        apply processBatchFetch_batchSkip _ _ _ _ _ _ ?_ ?_ ?_ h
        · by_cases hp : j.status = "pending" <;> by_cases hc : env.countFails <;>
            simp [hp, hc]
        · by_cases hp : j.status = "pending" <;> by_cases hc : env.countFails <;>
            simp [hp, hc]
        · by_cases hp : j.status = "pending" <;> by_cases hc : env.countFails <;>
            simp [hp, hc, hst]

def C4_job : JobRow := { freshJob with status := "running", total_records := 30 }

def C4_env : TickEnv :=
  { benignEnv with
      store := [{ id := 7, content := "hello world", changed_flag := "", vector := none }] }

theorem C4_witness :
    (runPass2 sampleInstance true
        [prepareRecord ["en"] true 0
          { id := 7, content := "hello world", changed_flag := "", vector := none }]
        C4_env).2 = 1 ∧
    (∃ msg, parseBatchAIResponse "no markers here" 1 = .error msg) ∧
    (MAX_BATCH_RETRIES ≤ 3 ∧
      (processBatchStep C4_job 3 C4_env).1.current_batch_offset
        = C4_job.current_batch_offset
          + (zillizQuery C4_env.store C4_env.filterPred
              C4_job.current_batch_offset BATCH_SIZE).length ∧
      (processBatchStep C4_job 3 C4_env).1.failed_records
        = C4_job.failed_records
          + (zillizQuery C4_env.store C4_env.filterPred
              C4_job.current_batch_offset BATCH_SIZE).length ∧
      (processBatchStep C4_job 3 C4_env).1.processed_records
        = C4_job.processed_records ∧
      (processBatchStep C4_job 3 C4_env).1.is_processing_batch = false ∧
      (processBatchStep C4_job 3 C4_env).1.status ≠ "failed") :=
  ⟨C4_combined_batch_dispatch.1 sampleInstance true _ C4_env (by decide) (by decide),
   C4_combined_batch_dispatch.2.1 "no markers here" 1 (by decide),
   C4_combined_batch_dispatch.2.2 C4_job 3 C4_env (by decide) (by decide)⟩

theorem dropWhile_dropWhile_eq {α : Type} (p : α → Bool) (l : List α) :
    (l.dropWhile p).dropWhile p = l.dropWhile p := by
  induction l with
  | nil => rfl
  | cons c cs ih =>
    by_cases hc : p c
    · simp [List.dropWhile_cons, hc, ih]
    · simp [List.dropWhile_cons, hc]

theorem dropWhile_head?_false {α : Type} (p : α → Bool) (l : List α) (x : α)
    (h : (l.dropWhile p).head? = some x) : p x = false := by
  have hm := List.head?_dropWhile_not p l
  rw [h] at hm
  exact hm

theorem dropWhile_eq_self_of_head? {α : Type} (p : α → Bool) (l : List α)
    (h : ∀ x, l.head? = some x → p x = false) : l.dropWhile p = l := by
  cases l with
  | nil => rfl
  | cons c cs =>
    have := h c rfl
    simp [List.dropWhile_cons, this]

theorem getLast?_dropWhile_of_ne_nil {α : Type} (p : α → Bool) (l : List α)
    (h : l.dropWhile p ≠ []) : (l.dropWhile p).getLast? = l.getLast? := by
  conv_rhs => rw [← List.takeWhile_append_dropWhile (p := p) (l := l)]
  rw [List.getLast?_append_of_ne_nil _ h]

theorem trimChars_head?_not_ws (l : Chars) (x : Char)
    (h : (trimChars l).head? = some x) : isWS x = false := by
  unfold trimChars at h
  rw [List.head?_reverse] at h
  have hne : (l.dropWhile isWS).reverse.dropWhile isWS ≠ [] := by
    intro hnil
    rw [hnil] at h
    simp at h
  rw [getLast?_dropWhile_of_ne_nil _ _ hne, List.getLast?_reverse] at h
  exact dropWhile_head?_false _ _ _ h

theorem trimChars_getLast?_not_ws (l : Chars) (x : Char)
    (h : (trimChars l).getLast? = some x) : isWS x = false := by
  unfold trimChars at h
  rw [List.getLast?_reverse] at h
  exact dropWhile_head?_false _ _ _ h

theorem trimChars_trimChars (l : Chars) :
    trimChars (trimChars l) = trimChars l := by
  have h1 : (trimChars l).dropWhile isWS = trimChars l :=
    dropWhile_eq_self_of_head? _ _ (fun x hx => trimChars_head?_not_ws l x hx)
  have h2 : (trimChars l).reverse.dropWhile isWS = (trimChars l).reverse :=
    dropWhile_eq_self_of_head? _ _ (fun x hx =>
      trimChars_getLast?_not_ws l x (by rwa [List.head?_reverse] at hx))
  show (((trimChars l).dropWhile isWS).reverse.dropWhile isWS).reverse = trimChars l
  rw [h1, h2, List.reverse_reverse]

theorem mem_of_mem_trimChars (c : Char) (l : Chars) (h : c ∈ trimChars l) :
    c ∈ l := by
  unfold trimChars at h
  rw [List.mem_reverse] at h
  have h1 := (List.dropWhile_sublist (p := isWS)
    (l := (l.dropWhile isWS).reverse)).mem h
  rw [List.mem_reverse] at h1
  exact (List.dropWhile_sublist (p := isWS) (l := l)).mem h1

theorem sentScan_eq_nil_of_noPunct (l : Chars)
    (h : ∀ c ∈ l, isSentPunct c = false) :
    ∀ body, sentScan l body [] = [] := by
  induction l with
  | nil => intro body; simp [sentScan]
  | cons c cs ih =>
    intro body
    have hc := h c (by simp)
    unfold sentScan
    rw [hc]
    simp only [Bool.false_eq_true, if_false, reduceIte]
    exact ih (fun x hx => h x (by simp [hx])) (c :: body)

theorem matchedSentences_eq_nil_of_noPunct (l : Chars)
    (h : ∀ c ∈ l, isSentPunct c = false) : matchedSentences l = [] :=
  sentScan_eq_nil_of_noPunct l h []

theorem joinSpace_single (x : Chars) : joinSpace [x] = x := by
  simp [joinSpace]

/-- The decision the sentence loop takes on an (already trimmed) sentence:
keep it when it is too short to classify or when its attributed language
set does not meet the removal set. -/
def keepsWholeText (ls : List String) (s : Chars) : Bool :=
  decide (s.length < 3) ||
    !((detectSentenceLanguages ⟨s⟩).any fun lang => ls.contains lang)

theorem removeLang_noPunct_eval (t : String) (ls : List String)
    (hnp : ∀ c ∈ t.data, isSentPunct c = false)
    (hs : trimChars t.data ≠ []) :
    (removeLanguageSentences t ls).cleanedText =
      if keepsWholeText ls (trimChars t.data)
      then String.mk (trimChars t.data) else "" := by
  unfold removeLanguageSentences
  rw [if_neg (by
    show ¬(jsTrim t).length = 0
    unfold jsTrim
    simpa [String.length] using hs)]
  dsimp only
  rw [matchedSentences_eq_nil_of_noPunct t.data hnp]
  simp only [List.flatten_nil, List.length_nil, List.drop_zero, ne_eq, hs,
    not_false_eq_true, if_true, List.nil_append, List.cons_ne_nil, if_false,
    reduceIte]
  unfold filterLoop filterSentenceStep
  rw [List.foldl_cons, List.foldl_nil]
  dsimp only
  rw [trimChars_trimChars]
  by_cases h3 : (trimChars t.data).length < 3
  · rw [if_pos h3, if_pos (show keepsWholeText ls (trimChars t.data) = true by
      simp [keepsWholeText, h3])]
    simp [joinSpace_single, trimChars_trimChars]
  · rw [if_neg h3]
    by_cases hrem : (detectSentenceLanguages ⟨trimChars t.data⟩).any
        (fun lang => ls.contains lang) = true
    · rw [if_pos hrem, if_neg (show ¬keepsWholeText ls (trimChars t.data) = true by
        simp [keepsWholeText, h3]
        simpa using hrem)]
      simp [joinSpace]
      rfl
    · rw [if_neg hrem, if_pos (show keepsWholeText ls (trimChars t.data) = true by
        simp [keepsWholeText, h3]
        simpa using hrem)]
      simp [joinSpace_single, trimChars_trimChars]

/-- C7 (amended): the Content Filter is deterministic — equal inputs give
equal outputs — and applying it to its own `cleanedText` output is the
identity for texts containing no sentence-terminating punctuation
(`.`, `!`, `?`).  It is *not* idempotent in general: re-splitting the
output re-joins the kept sentences with an extra space each time, because
every kept non-initial sentence retains its leading whitespace and the
join inserts one more (see the counterexample). -/
theorem C7_deterministic_and_noPunct_idempotent :
    (∀ (t₁ t₂ : String) (ls₁ ls₂ : List String), t₁ = t₂ → ls₁ = ls₂ →
      removeLanguageSentences t₁ ls₁ = removeLanguageSentences t₂ ls₂) ∧
    (∀ (t : String) (ls : List String),
      (∀ c ∈ t.data, isSentPunct c = false) →
      (removeLanguageSentences
          ((removeLanguageSentences t ls).cleanedText) ls).cleanedText
        = (removeLanguageSentences t ls).cleanedText) := by
  constructor
  · intro t1 t2 ls1 ls2 ht hls
    rw [ht, hls]
  · intro t ls hnp
    have hempty : (removeLanguageSentences "" ls).cleanedText = "" := by
      unfold removeLanguageSentences
      rw [if_pos (show (jsTrim "").length = 0 from rfl)]
    by_cases hs : trimChars t.data = []
    · have h0 : (removeLanguageSentences t ls).cleanedText = "" := by
        unfold removeLanguageSentences
        rw [if_pos (by
          show (jsTrim t).length = 0
          unfold jsTrim
          simp [String.length, hs])]
      rw [h0, hempty]
    · have he := removeLang_noPunct_eval t ls hnp hs
      by_cases hk : keepsWholeText ls (trimChars t.data) = true
      · rw [he, if_pos hk]
        have hdata : (String.mk (trimChars t.data)).data = trimChars t.data := rfl
        have hnp' : ∀ c ∈ (String.mk (trimChars t.data)).data,
            isSentPunct c = false := by
          rw [hdata]
          intro c hc
          exact hnp c (mem_of_mem_trimChars c t.data hc)
        have hs' : trimChars (String.mk (trimChars t.data)).data ≠ [] := by
          rw [hdata, trimChars_trimChars]
          exact hs
        rw [removeLang_noPunct_eval _ ls hnp' hs']
        have htt : trimChars (String.mk (trimChars t.data)).data
            = trimChars t.data := by
          rw [hdata, trimChars_trimChars]
        rw [htt, if_pos hk]
      · rw [he, if_neg hk, hempty]

/-- C7 (counterexample): filtering `"ab. cd."` (removal set `{en}`) keeps
both sentences and yields `"ab.  cd."` (two spaces: the join adds one
space and the second sentence keeps its own leading space); filtering that
output again yields `"ab.   cd."` — the filter is not idempotent. -/
theorem C7_counterexample :
    (removeLanguageSentences
        ((removeLanguageSentences "ab. cd." ["en"]).cleanedText)
        ["en"]).cleanedText
      ≠ (removeLanguageSentences "ab. cd." ["en"]).cleanedText := by
  decide

theorem C7_witness :
    (removeLanguageSentences
        ((removeLanguageSentences "hello world" ["en"]).cleanedText)
        ["en"]).cleanedText
      = (removeLanguageSentences "hello world" ["en"]).cleanedText :=
  C7_deterministic_and_noPunct_idempotent.2 "hello world" ["en"] (by decide)


end NewCrawler
